import Mathlib

/-!
Verification development for the deepseek-ai-web-crawler repository.

The core under study is `utils/scraper_utils.py`: the end-of-results probe
(`check_no_results`) and the single-page processing pipeline
(`fetch_and_process_page`).  Python dynamic values produced by `json.loads`
are modelled by the inductive type `Json`; Python exceptions by the
`Except PyError` monad; the two awaited crawler fetches by `FetchResult`
inputs; and `json.loads` by an explicit parse function passed as a
parameter.  `is_complete_venue` and `is_duplicate_venue` live in
`utils/data_utils.py`, which is not among the available source files; they
are modelled from the spec (see their doc comments).
-/

/-- A Python/JSON dynamic value as produced by `json.loads`: `None`, `bool`,
a number (`int` and `float` collapse to one numeric constructor, matching
Python's cross-type numeric equality), `str`, `list`, or `dict` (an ordered
association list of string keys). -/
inductive Json where
  | null
  | bool (b : Bool)
  | num (q : ℚ)
  | str (s : String)
  | arr (elems : List Json)
  | obj (fields : List (String × Json))

namespace Json

mutual

/-- Decides structural equality of values by recursion (the automatic
derivation does not handle the nested lists). -/
def jeq (a b : Json) : Bool :=
  match a, b with
  | .str x, .str y => x == y
  | .num x, .num y => x == y
  | .bool x, .bool y => x == y
  | .null, .null => true
  | .obj es, .obj fs => jeqEntries es fs
  | .arr xs, .arr ys => jeqElems xs ys
  | _, _ => false

/-- Elementwise `jeq` on lists of values. -/
def jeqElems (xs ys : List Json) : Bool :=
  match xs, ys with
  | a :: as, b :: bs => jeq a b && jeqElems as bs
  | [], [] => true
  | _, _ => false

/-- Entrywise equality on field lists: string equality of keys, `jeq` of
values. -/
def jeqEntries (es fs : List (String × Json)) : Bool :=
  match es, fs with
  | (k, a) :: es', (l, b) :: fs' => (k == l) && (jeq a b && jeqEntries es' fs')
  | [], [] => true
  | _, _ => false

end

mutual

/-- The recursion `jeq` decides propositional equality of values. -/
theorem jeq_eq_true_iff : ∀ (a b : Json), jeq a b = true ↔ a = b
  | .str x, .str y => by simp [jeq]
  | .num x, .num y => by simp [jeq]
  | .bool x, .bool y => by simp [jeq]
  | .null, .null => by simp [jeq]
  | .obj es, .obj fs => by simp [jeq, jeqEntries_eq_true_iff es fs]
  | .arr xs, .arr ys => by simp [jeq, jeqElems_eq_true_iff xs ys]
  | .str _, .null => by simp [jeq]
  | .str _, .bool _ => by simp [jeq]
  | .str _, .num _ => by simp [jeq]
  | .str _, .arr _ => by simp [jeq]
  | .str _, .obj _ => by simp [jeq]
  | .num _, .null => by simp [jeq]
  | .num _, .bool _ => by simp [jeq]
  | .num _, .str _ => by simp [jeq]
  | .num _, .arr _ => by simp [jeq]
  | .num _, .obj _ => by simp [jeq]
  | .bool _, .null => by simp [jeq]
  | .bool _, .num _ => by simp [jeq]
  | .bool _, .str _ => by simp [jeq]
  | .bool _, .arr _ => by simp [jeq]
  | .bool _, .obj _ => by simp [jeq]
  | .null, .bool _ => by simp [jeq]
  | .null, .num _ => by simp [jeq]
  | .null, .str _ => by simp [jeq]
  | .null, .arr _ => by simp [jeq]
  | .null, .obj _ => by simp [jeq]
  | .arr _, .null => by simp [jeq]
  | .arr _, .bool _ => by simp [jeq]
  | .arr _, .num _ => by simp [jeq]
  | .arr _, .str _ => by simp [jeq]
  | .arr _, .obj _ => by simp [jeq]
  | .obj _, .null => by simp [jeq]
  | .obj _, .bool _ => by simp [jeq]
  | .obj _, .num _ => by simp [jeq]
  | .obj _, .str _ => by simp [jeq]
  | .obj _, .arr _ => by simp [jeq]

/-- List version of `jeq_eq_true_iff`. -/
theorem jeqElems_eq_true_iff : ∀ (xs ys : List Json), jeqElems xs ys = true ↔ xs = ys
  | a :: as, b :: bs => by
      simp [jeqElems, jeq_eq_true_iff a b, jeqElems_eq_true_iff as bs]
  | [], [] => by simp [jeqElems]
  | _ :: _, [] => by simp [jeqElems]
  | [], _ :: _ => by simp [jeqElems]

/-- Field-list version of `jeq_eq_true_iff`. -/
theorem jeqEntries_eq_true_iff :
    ∀ (es fs : List (String × Json)), jeqEntries es fs = true ↔ es = fs
  | (k, a) :: es', (l, b) :: fs' => by
      simp [jeqEntries, jeq_eq_true_iff a b, jeqEntries_eq_true_iff es' fs', and_assoc]
  | [], [] => by simp [jeqEntries]
  | _ :: _, [] => by simp [jeqEntries]
  | [], _ :: _ => by simp [jeqEntries]

end

instance : DecidableEq Json := fun a b => decidable_of_iff (jeq a b = true) (jeq_eq_true_iff a b)

end Json

/-- A modelled Python exception escaping the page-processing code. -/
inductive PyError where
  | jsonDecodeError
  | attributeError
  | typeError
  | keyError
  deriving DecidableEq

instance {ε α : Type _} [DecidableEq ε] [DecidableEq α] : DecidableEq (Except ε α) :=
  fun a b =>
    match a, b with
    | .error e₁, .error e₂ => decidable_of_iff (e₁ = e₂) (by simp)
    | .ok x, .ok y => decidable_of_iff (x = y) (by simp)
    | .error _, .ok _ => isFalse (by simp)
    | .ok _, .error _ => isFalse (by simp)

/-- The observable part of a `crawler.arun` result used by the source:
`success`, `cleaned_html` (inspected by the probe), `error_message` (only
printed), and `extracted_content` (an optional string; `None` when the
strategy produced nothing). -/
structure FetchResult where
  success : Bool
  cleaned_html : String
  error_message : String
  extracted_content : Option String

/-- First-match lookup in an association list, i.e. Python `dict` access on
the modelled (duplicate-free) field list. -/
def objLookup (fields : List (String × Json)) (k : String) : Option Json :=
  match fields with
  | [] => none
  | (k', v) :: rest => if k' = k then some v else objLookup rest k

/-- Python `venue.get(k)`: `None`-defaulted lookup on a `dict`, and an
`AttributeError` on any non-`dict` value (no other `Json` value has `.get`). -/
def pyGet (v : Json) (k : String) : Except PyError (Option Json) :=
  match v with
  | .obj fields => .ok (objLookup fields k)
  | _ => .error .attributeError

/-- Python `venue[k]`: a `KeyError` when the key is missing and a
`TypeError` on non-`dict` values. -/
def pyIndex (v : Json) (k : String) : Except PyError Json :=
  match v with
  | .obj fields =>
    match objLookup fields k with
    | some x => .ok x
    | none => .error .keyError
  | _ => .error .typeError

/-- Whether an association-list entry survives removal of key `k`. -/
def keepEntry (k : String) (p : String × Json) : Bool :=
  !(p.1 == k)

/-- Python `venue.pop(k, None)`: removes the key from a `dict`, identity on
anything else (the source only calls it on values that answered `.get`). -/
def popKey (v : Json) (k : String) : Json :=
  match v with
  | .obj fields => .obj (fields.filter (keepEntry k))
  | _ => v

/-- Python truthiness of a `Json` value (`if not extracted_data`). -/
def jsonTruthy : Json → Bool
  | .null => false
  | .bool b => b
  | .num q => decide (q ≠ 0)
  | .str s => decide (s ≠ "")
  | .arr elems => decide (elems ≠ [])
  | .obj fields => decide (fields ≠ [])

/-- Python truthiness of `result.extracted_content` (`None` and `""` are
falsy). -/
def optStrTruthy : Option String → Bool
  | none => false
  | some s => decide (s ≠ "")

/-- Python `for venue in extracted_data`: iterating a `list` yields its
elements, a `dict` its keys, a `str` its one-character substrings; every
other value raises a `TypeError`. -/
def pyIter : Json → Except PyError (List Json)
  | .arr elems => .ok elems
  | .obj fields => .ok (fields.map (fun p => .str p.1))
  | .str s => .ok (s.toList.map (fun c => .str (String.mk [c])))
  | _ => .error .typeError

/-- Embeds `check_no_results` (src/utils/scraper_utils.py, lines 54–87): on
a successful probe fetch, report whether the sentinel string
"No Results Found" occurs in the cleaned HTML; on a failed fetch, print the
error and report `False`. -/
def check_no_results (result : FetchResult) : Bool :=
  if result.success then
    decide ("No Results Found".toList <:+: result.cleaned_html.toList)
  else false

/-- Modelled from the spec: `is_complete_venue` is imported from
`utils/data_utils.py`, a repository file absent from the available sources
(only its import and call site are present).  Per §4.1/§8 it is true iff
every field name in `required_keys` is present as a key of `venue` with a
value that is neither null nor an empty string (numeric and boolean values
are never equal to the empty string, so they are only checked for presence
and non-null), and a non-mapping candidate yields `false` rather than an
exception. -/
def is_complete_venue (venue : Json) (required_keys : List String) : Bool :=
  match venue with
  | .obj fields =>
    required_keys.all (fun k =>
      match objLookup fields k with
      | some v => decide (v ≠ Json.null) && decide (v ≠ Json.str "")
      | none => false)
  | _ => false

/-- Modelled from the spec: `is_duplicate_venue` is imported from
`utils/data_utils.py`, a repository file absent from the available sources.
Per §4.2 it is true iff the name is already a member of `seen_names`. -/
def is_duplicate_venue (venue_name : Json) (seen_names : List Json) : Bool :=
  decide (venue_name ∈ seen_names)

/-- The loop body of `fetch_and_process_page` (src/utils/scraper_utils.py,
lines 152–169) for one extracted candidate: strip the `error` key when its
value `is False`, skip incomplete venues, skip duplicate names, otherwise
record the name as seen and accept the venue.  Returns the accepted venue
(if any) and the updated seen set; errors model what each Python step can
raise. -/
def process_venue (required_keys : List String) (seen_names : List Json) (venue : Json) :
    Except PyError (Option Json × List Json) :=
  match pyGet venue "error" with
  | .error e => .error e
  | .ok errVal =>
    let venue' := if errVal = some (Json.bool false) then popKey venue "error" else venue
    if !(is_complete_venue venue' required_keys) then .ok (none, seen_names)
    else
      match pyIndex venue' "name" with
      | .error e => .error e
      | .ok nm =>
        if is_duplicate_venue nm seen_names then .ok (none, seen_names)
        else .ok (some venue', seen_names ++ [nm])

/-- The `for venue in extracted_data` loop of `fetch_and_process_page`,
threading the accumulated `complete_venues` list and the mutable
`seen_names` set through `process_venue`. -/
def process_venues (required_keys : List String) :
    List Json → List Json → List Json → Except PyError (List Json × List Json)
  | [], complete_venues, seen_names => .ok (complete_venues, seen_names)
  | venue :: rest, complete_venues, seen_names =>
    match process_venue required_keys seen_names venue with
    | .error e => .error e
    | .ok (none, seen') => process_venues required_keys rest complete_venues seen'
    | .ok (some v, seen') => process_venues required_keys rest (complete_venues ++ [v]) seen'

/-- The pair returned by `fetch_and_process_page` — the page's accepted
venues and the no-results flag — together with the final state of the
`seen_names` set the Python code mutates in place. -/
structure PageOutcome where
  venues : List Json
  no_results : Bool
  seen_names : List Json
  deriving DecidableEq

/-- The part of `fetch_and_process_page` after the no-results probe
(src/utils/scraper_utils.py, lines 126–176): the extraction fetch result is
checked for success and truthy content, the content is parsed by
`json.loads` (here the explicit `json_loads` parameter, whose failure is the
raised `JSONDecodeError`), a falsy parse yields an early return, and the
candidates are filtered by `process_venues`. -/
def extract_phase (page_result : FetchResult) (json_loads : String → Except PyError Json)
    (required_keys : List String) (seen_names : List Json) : Except PyError PageOutcome :=
  if !(page_result.success && optStrTruthy page_result.extracted_content) then
    .ok ⟨[], false, seen_names⟩
  else
    match json_loads (page_result.extracted_content.getD "") with
    | .error e => .error e
    | .ok extracted_data =>
      if !(jsonTruthy extracted_data) then .ok ⟨[], false, seen_names⟩
      else
        match pyIter extracted_data with
        | .error e => .error e
        | .ok venue_list =>
          match process_venues required_keys venue_list [] seen_names with
          | .error e => .error e
          | .ok (complete_venues, seen') =>
            if complete_venues.isEmpty then .ok ⟨[], false, seen'⟩
            else .ok ⟨complete_venues, false, seen'⟩

/-- Embeds `fetch_and_process_page` (src/utils/scraper_utils.py, lines
90–176).  The two awaited `crawler.arun` calls are inputs: `probe` is the
result of the lightweight no-results fetch and `page_result` the result of
the extraction fetch.  If the probe reports the sentinel, return
`([], True)`; otherwise run the extraction phase. -/
def fetch_and_process_page (probe page_result : FetchResult)
    (json_loads : String → Except PyError Json)
    (required_keys : List String) (seen_names : List Json) : Except PyError PageOutcome :=
  if check_no_results probe then .ok ⟨[], true, seen_names⟩
  else extract_phase page_result json_loads required_keys seen_names

/-- Embeds `REQUIRED_KEYS` from src/config.py. -/
def REQUIRED_KEYS : List String :=
  ["name", "author", "publisher", "pub_date", "rating", "reviews", "description"]

/-- The pure value of the in-place `error`-stripping step: remove the
`error` key exactly when its value is the boolean `false`, identity
otherwise. -/
def strip_false_error (venue : Json) : Json :=
  match venue with
  | .obj fields =>
    if objLookup fields "error" = some (Json.bool false) then
      .obj (fields.filter (keepEntry "error"))
    else venue
  | _ => venue

/-- The `name` field of an accepted venue (the value `venue["name"]`
recorded into `seen_names`). -/
def venue_name_value (venue : Json) : Json :=
  match venue with
  | .obj fields => (objLookup fields "name").getD Json.null
  | _ => Json.null

/-! ### Helper lemmas about the filtering pipeline -/

/-- The per-candidate step after the error-marker strip: completeness check,
name lookup, duplicate check, acceptance.  `process_venue` on a mapping is
this step applied to the stripped mapping (see `process_venue_obj`). -/
def filter_step (required_keys : List String) (seen_names : List Json) (w : Json) :
    Except PyError (Option Json × List Json) :=
  if !(is_complete_venue w required_keys) then .ok (none, seen_names)
  else
    match pyIndex w "name" with
    | .error e => .error e
    | .ok nm =>
      if is_duplicate_venue nm seen_names then .ok (none, seen_names)
      else .ok (some w, seen_names ++ [nm])

theorem process_venue_obj (req : List String) (s : List Json) (fs : List (String × Json)) :
    process_venue req s (.obj fs) = filter_step req s (strip_false_error (.obj fs)) := by
  simp only [process_venue, pyGet, strip_false_error, popKey, filter_step]

theorem process_venue_not_obj (req : List String) (s : List Json) (v : Json)
    (h : ∀ fs, v ≠ .obj fs) : process_venue req s v = .error .attributeError := by
  cases v with
  | obj fs => exact absurd rfl (h fs)
  | null => rfl
  | bool b => rfl
  | num q => rfl
  | str t => rfl
  | arr xs => rfl

theorem venue_name_value_of_pyIndex {w nm : Json} (h : pyIndex w "name" = .ok nm) :
    venue_name_value w = nm := by
  cases w with
  | obj fs =>
    cases hl : objLookup fs "name" with
    | none => simp [pyIndex, hl] at h
    | some x =>
      simp [pyIndex, hl] at h
      simp [venue_name_value, hl, h]
  | null => simp [pyIndex] at h
  | bool b => simp [pyIndex] at h
  | num q => simp [pyIndex] at h
  | str t => simp [pyIndex] at h
  | arr xs => simp [pyIndex] at h

theorem filter_step_ok_cases {req : List String} {s : List Json} {w : Json}
    {r : Option Json} {s' : List Json} (h : filter_step req s w = .ok (r, s')) :
    (r = none ∧ s' = s) ∨
      (r = some w ∧ venue_name_value w ∉ s ∧ s' = s ++ [venue_name_value w]) := by
  unfold filter_step at h
  split at h
  · obtain ⟨rfl, rfl⟩ : none = r ∧ s = s' := by simpa using h
    exact Or.inl ⟨rfl, rfl⟩
  · split at h
    · exact absurd h (by simp)
    · rename_i nm hidx
      have hnm := venue_name_value_of_pyIndex hidx
      split at h
      · obtain ⟨rfl, rfl⟩ : none = r ∧ s = s' := by simpa using h
        exact Or.inl ⟨rfl, rfl⟩
      · rename_i hdup
        obtain ⟨rfl, rfl⟩ : some w = r ∧ s ++ [nm] = s' := by simpa using h
        have hns : nm ∉ s := by
          simp only [is_duplicate_venue, decide_eq_true_eq] at hdup
          exact hdup
        exact Or.inr ⟨rfl, by rw [hnm]; exact hns, by rw [hnm]⟩

theorem process_venue_ok_cases {req : List String} {s : List Json} {v : Json}
    {r : Option Json} {s' : List Json} (h : process_venue req s v = .ok (r, s')) :
    (r = none ∧ s' = s) ∨
      (r = some (strip_false_error v) ∧ venue_name_value (strip_false_error v) ∉ s ∧
        s' = s ++ [venue_name_value (strip_false_error v)]) := by
  cases v with
  | obj fs => rw [process_venue_obj] at h; exact filter_step_ok_cases h
  | null => exact absurd h (by simp [process_venue, pyGet])
  | bool b => exact absurd h (by simp [process_venue, pyGet])
  | num q => exact absurd h (by simp [process_venue, pyGet])
  | str t => exact absurd h (by simp [process_venue, pyGet])
  | arr xs => exact absurd h (by simp [process_venue, pyGet])

theorem process_venue_seen_mono {req : List String} {s : List Json} {v : Json}
    {r : Option Json} {s' : List Json} (h : process_venue req s v = .ok (r, s')) :
    ∀ x ∈ s, x ∈ s' := by
  rcases process_venue_ok_cases h with ⟨-, rfl⟩ | ⟨-, -, rfl⟩
  · exact fun x hx => hx
  · exact fun x hx => List.mem_append_left _ hx

theorem filter_step_seen_mono {req : List String} {s : List Json} {w : Json}
    {r : Option Json} {s₂ : List Json} (h : filter_step req s w = .ok (r, s₂)) :
    ∀ x ∈ s, x ∈ s₂ := by
  rcases filter_step_ok_cases h with ⟨-, rfl⟩ | ⟨-, -, rfl⟩
  · exact fun x hx => hx
  · exact fun x hx => List.mem_append_left _ hx

theorem filter_step_absorb {req : List String} {s t : List Json} {w : Json}
    {r : Option Json} {s₂ : List Json} (h : filter_step req s w = .ok (r, s₂))
    (ht : ∀ x ∈ s₂, x ∈ t) : filter_step req t w = .ok (none, t) := by
  have hst : ∀ x ∈ s, x ∈ t := fun x hx => ht x (filter_step_seen_mono h x hx)
  unfold filter_step at h ⊢
  split at h
  · rename_i hc; rw [if_pos hc]
  · rename_i hc
    rw [if_neg hc]
    split at h
    · exact absurd h (by simp)
    · rename_i nm hidx
      have hmem : nm ∈ t := by
        split at h
        · rename_i hdup
          simp only [is_duplicate_venue, decide_eq_true_eq] at hdup
          exact hst nm hdup
        · obtain ⟨-, rfl⟩ : some w = r ∧ s ++ [nm] = s₂ := by simpa using h
          exact ht nm (List.mem_append_right _ (List.mem_singleton_self nm))
      have hdupt : is_duplicate_venue nm t = true := by
        simp [is_duplicate_venue, hmem]
      simp [hidx, hdupt]

theorem process_venue_absorb {req : List String} {s t : List Json} {v : Json}
    {r : Option Json} {s₂ : List Json} (h : process_venue req s v = .ok (r, s₂))
    (ht : ∀ x ∈ s₂, x ∈ t) : process_venue req t v = .ok (none, t) := by
  cases v with
  | obj fs =>
    rw [process_venue_obj] at h ⊢
    exact filter_step_absorb h ht
  | null => exact absurd h (by simp [process_venue, pyGet])
  | bool b => exact absurd h (by simp [process_venue, pyGet])
  | num q => exact absurd h (by simp [process_venue, pyGet])
  | str t' => exact absurd h (by simp [process_venue, pyGet])
  | arr xs => exact absurd h (by simp [process_venue, pyGet])

/-- The recorded identities of a selection of accepted candidates: the
`name` value of each one after the error-marker strip. -/
def accepted_names (sel : List Json) : List Json :=
  sel.map (fun v => venue_name_value (strip_false_error v))

theorem process_venues_ok_spec (req : List String) (vs : List Json) :
    ∀ (acc s c s' : List Json),
      process_venues req vs acc s = .ok (c, s') →
      ∃ sel : List Json, sel.Sublist vs ∧
        c = acc ++ sel.map strip_false_error ∧
        s' = s ++ accepted_names sel ∧
        (accepted_names sel).Nodup ∧
        (∀ nm ∈ accepted_names sel, nm ∉ s) := by
  induction vs with
  | nil =>
    intro acc s c s' h
    obtain ⟨rfl, rfl⟩ : acc = c ∧ s = s' := by simpa [process_venues] using h
    exact ⟨[], List.nil_sublist _, by simp [accepted_names], by simp [accepted_names],
      by simp [accepted_names], by simp [accepted_names]⟩
  | cons v rest ih =>
    intro acc s c s' h
    simp only [process_venues] at h
    split at h
    · exact absurd h (by simp)
    · rename_i seen' heq
      have hss : seen' = s := by
        rcases process_venue_ok_cases heq with ⟨-, h2⟩ | ⟨hcontra, -, -⟩
        · exact h2
        · exact absurd hcontra (by simp)
      rw [hss] at h
      obtain ⟨sel, hsub, hc, hs, hnd, hni⟩ := ih acc s c s' h
      exact ⟨sel, hsub.cons v, hc, hs, hnd, hni⟩
    · rename_i w seen' heq
      rcases process_venue_ok_cases heq with ⟨hcontra, -⟩ | ⟨hw, hnotin, hseen⟩
      · exact absurd hcontra (by simp)
      obtain rfl : w = strip_false_error v := by injection hw
      subst hseen
      obtain ⟨sel', hsub', hc', hs', hnd', hni'⟩ := ih (acc ++ [strip_false_error v])
        (s ++ [venue_name_value (strip_false_error v)]) c s' h
      refine ⟨v :: sel', hsub'.cons₂ v, ?_, ?_, ?_, ?_⟩
      · rw [hc']; simp
      · rw [hs']; simp [accepted_names]
      · refine List.nodup_cons.mpr ⟨?_, hnd'⟩
        intro hmem
        have := hni' _ hmem
        simp at this
      · intro nm hnm
        rcases List.mem_cons.mp hnm with rfl | hnm'
        · exact hnotin
        · intro hns
          exact hni' nm hnm' (List.mem_append_left _ hns)

theorem process_venues_twice (req : List String) (vs : List Json) :
    ∀ (acc s c s' : List Json), process_venues req vs acc s = .ok (c, s') →
      (∀ x ∈ s, x ∈ s') ∧ ∀ b, process_venues req vs b s' = .ok (b, s') := by
  induction vs with
  | nil =>
    intro acc s c s' h
    obtain ⟨rfl, rfl⟩ : acc = c ∧ s = s' := by simpa [process_venues] using h
    exact ⟨fun x hx => hx, fun b => rfl⟩
  | cons v rest ih =>
    intro acc s c s' h
    simp only [process_venues] at h
    split at h
    · exact absurd h (by simp)
    · rename_i seen' heq
      obtain ⟨hmono, hsecond⟩ := ih acc seen' c s' h
      have hs : ∀ x ∈ s, x ∈ s' := fun x hx =>
        hmono x (process_venue_seen_mono heq x hx)
      have habs : process_venue req s' v = .ok (none, s') :=
        process_venue_absorb heq hmono
      refine ⟨hs, fun b => ?_⟩
      simp only [process_venues, habs]
      exact hsecond b
    · rename_i w seen' heq
      obtain ⟨hmono, hsecond⟩ := ih (acc ++ [w]) seen' c s' h
      have hs : ∀ x ∈ s, x ∈ s' := fun x hx =>
        hmono x (process_venue_seen_mono heq x hx)
      have habs : process_venue req s' v = .ok (none, s') :=
        process_venue_absorb heq hmono
      refine ⟨hs, fun b => ?_⟩
      simp only [process_venues, habs]
      exact hsecond b

theorem process_venues_raises (req : List String) (vs : List Json) :
    ∀ (acc s : List Json) (v : Json), v ∈ vs → (∀ fs, v ≠ .obj fs) →
      ∃ e, process_venues req vs acc s = .error e := by
  induction vs with
  | nil => intro acc s v hv _; exact absurd hv (List.not_mem_nil v)
  | cons u rest ih =>
    intro acc s v hv hnobj
    rcases List.mem_cons.mp hv with rfl | hv'
    · exact ⟨.attributeError, by
        simp only [process_venues, process_venue_not_obj req s v hnobj]⟩
    · cases hu : process_venue req s u with
      | error e => exact ⟨e, by simp only [process_venues, hu]⟩
      | ok p =>
        obtain ⟨r, s₂⟩ := p
        cases r with
        | none =>
          obtain ⟨e, he⟩ := ih acc s₂ v hv' hnobj
          exact ⟨e, by simp only [process_venues, hu]; exact he⟩
        | some w =>
          obtain ⟨e, he⟩ := ih (acc ++ [w]) s₂ v hv' hnobj
          exact ⟨e, by simp only [process_venues, hu]; exact he⟩

/-! ### Frame lemmas about the error-marker strip -/

theorem objLookup_filter_self (fs : List (String × Json)) (k : String) :
    objLookup (fs.filter (keepEntry k)) k = none := by
  induction fs with
  | nil => rfl
  | cons p rest ih =>
    obtain ⟨k', v⟩ := p
    by_cases hk : k' = k
    · rw [List.filter_cons]
      have : keepEntry k (k', v) = false := by simp [keepEntry, hk]
      rw [this]
      simpa using ih
    · rw [List.filter_cons]
      have : keepEntry k (k', v) = true := by simp [keepEntry, hk]
      rw [this]
      simpa [objLookup, hk] using ih

theorem objLookup_filter_other (fs : List (String × Json)) (k k' : String) (h : k' ≠ k) :
    objLookup (fs.filter (keepEntry k)) k' = objLookup fs k' := by
  induction fs with
  | nil => rfl
  | cons p rest ih =>
    obtain ⟨k'', v⟩ := p
    by_cases hk : k'' = k
    · rw [List.filter_cons]
      have h1 : keepEntry k (k'', v) = false := by simp [keepEntry, hk]
      have h2 : ¬ (k'' = k') := fun hc => h (hk ▸ hc.symm)
      rw [h1]
      simpa [objLookup, h2] using ih
    · rw [List.filter_cons]
      have h1 : keepEntry k (k'', v) = true := by simp [keepEntry, hk]
      rw [h1]
      simp only [objLookup, ih]

/-- Total field access on a candidate value: the field's value on a
mapping, `none` on anything else.  Used to state frame properties of the
strip step. -/
def venue_get (v : Json) (k : String) : Option Json :=
  match v with
  | .obj fields => objLookup fields k
  | _ => none

theorem strip_false_error_id {v : Json}
    (h : venue_get v "error" ≠ some (Json.bool false)) : strip_false_error v = v := by
  cases v with
  | obj fs => simp only [venue_get] at h; simp [strip_false_error, h]
  | null => rfl
  | bool b => rfl
  | num q => rfl
  | str t => rfl
  | arr xs => rfl

theorem strip_false_error_frame (v : Json) (k : String) (hk : k ≠ "error") :
    venue_get (strip_false_error v) k = venue_get v k := by
  cases v with
  | obj fs =>
    by_cases h : objLookup fs "error" = some (Json.bool false)
    · simp only [strip_false_error, h, if_pos, venue_get]
      exact objLookup_filter_other fs "error" k hk
    · simp [strip_false_error, h]
  | null => rfl
  | bool b => rfl
  | num q => rfl
  | str t => rfl
  | arr xs => rfl

theorem strip_false_error_removes (v : Json)
    (h : venue_get v "error" = some (Json.bool false)) :
    venue_get (strip_false_error v) "error" = none := by
  cases v with
  | obj fs =>
    simp only [venue_get] at h
    simp only [strip_false_error, h, if_pos, venue_get]
    exact objLookup_filter_self fs "error"
  | null => simp [venue_get] at h
  | bool b => simp [venue_get] at h
  | num q => simp [venue_get] at h
  | str t => simp [venue_get] at h
  | arr xs => simp [venue_get] at h

/-- Exhaustive case analysis of a successful `fetch_and_process_page` call:
the sentinel branch, the failed/empty extraction fetch branch, the falsy
parse branch, and the filtering branch (with its zero-survivor sub-case). -/
theorem fetch_ok_cases {probe page_result : FetchResult}
    {json_loads : String → Except PyError Json} {req : List String} {s : List Json}
    {out : PageOutcome}
    (h : fetch_and_process_page probe page_result json_loads req s = .ok out) :
    (check_no_results probe = true ∧ out = ⟨[], true, s⟩) ∨
    (check_no_results probe = false ∧
      (page_result.success && optStrTruthy page_result.extracted_content) = false ∧
      out = ⟨[], false, s⟩) ∨
    (check_no_results probe = false ∧
      (page_result.success && optStrTruthy page_result.extracted_content) = true ∧
      ∃ data, json_loads (page_result.extracted_content.getD "") = .ok data ∧
        ((jsonTruthy data = false ∧ out = ⟨[], false, s⟩) ∨
         (jsonTruthy data = true ∧ ∃ venue_list c s', pyIter data = .ok venue_list ∧
           process_venues req venue_list [] s = .ok (c, s') ∧
           ((c = [] ∧ out = ⟨[], false, s'⟩) ∨ (c ≠ [] ∧ out = ⟨c, false, s'⟩))))) := by
  unfold fetch_and_process_page at h
  split at h
  · rename_i hprobe
    exact Or.inl ⟨hprobe, (Except.ok.inj h).symm⟩
  · rename_i hprobe
    have hp : check_no_results probe = false := by
      simpa using hprobe
    unfold extract_phase at h
    split at h
    · rename_i hfetch
      have hf : (page_result.success && optStrTruthy page_result.extracted_content) = false := by
        rwa [Bool.not_eq_true'] at hfetch
      exact Or.inr (Or.inl ⟨hp, hf, (Except.ok.inj h).symm⟩)
    · rename_i hfetch
      have hf : (page_result.success && optStrTruthy page_result.extracted_content) = true := by
        simpa using hfetch
      refine Or.inr (Or.inr ⟨hp, hf, ?_⟩)
      split at h
      · exact absurd h (by simp)
      · rename_i data hdata
        refine ⟨data, hdata, ?_⟩
        split at h
        · rename_i htr
          have ht : jsonTruthy data = false := by simpa using htr
          exact Or.inl ⟨ht, (Except.ok.inj h).symm⟩
        · rename_i htr
          have ht : jsonTruthy data = true := by simpa using htr
          refine Or.inr ⟨ht, ?_⟩
          split at h
          · exact absurd h (by simp)
          · rename_i venue_list hvl
            split at h
            · exact absurd h (by simp)
            · rename_i c s' hpv
              refine ⟨venue_list, c, s', hvl, hpv, ?_⟩
              split at h
              · rename_i hempty
                exact Or.inl ⟨List.isEmpty_iff.mp hempty, (Except.ok.inj h).symm⟩
              · rename_i hempty
                have : c ≠ [] := by
                  intro hc
                  exact hempty (by simp [hc])
                exact Or.inr ⟨this, (Except.ok.inj h).symm⟩

/-! ### Concrete inputs used by witnesses and counterexamples -/

/-- A complete candidate as the extraction collaborator would emit it. -/
def sampleFields : List (String × Json) :=
  [("name", .str "Dune"), ("author", .str "Frank Herbert"), ("publisher", .str "Ace"),
   ("pub_date", .str "1965-08"), ("rating", .num 5), ("reviews", .num 1000),
   ("description", .str "Classic")]

/-- The complete candidate as a `Json` mapping. -/
def sampleVenue : Json := .obj sampleFields

/-- The complete candidate carrying a true-valued error marker. -/
def errTrueFields : List (String × Json) := ("error", .bool true) :: sampleFields

/-- The complete candidate carrying a false-valued error marker. -/
def errFalseFields : List (String × Json) := ("error", .bool false) :: sampleFields

/-- The false-marked candidate as a `Json` mapping. -/
def errFalseVenue : Json := .obj errFalseFields

/-- A candidate missing most required fields. -/
def incompleteVenue : Json := .obj [("name", .str "Mystery")]

/-- A failed probe fetch. -/
def probeFail : FetchResult := ⟨false, "", "network error", none⟩

/-- A successful probe fetch without the sentinel. -/
def probeOk : FetchResult := ⟨true, "<html>books</html>", "", none⟩

/-- A successful probe fetch containing the sentinel. -/
def probeExhausted : FetchResult := ⟨true, "<p>No Results Found</p>", "", none⟩

/-- A successful extraction fetch with truthy content. -/
def goodFetch : FetchResult := ⟨true, "<html>books</html>", "", some "[json array]"⟩

/-- A failed extraction fetch. -/
def failedFetch : FetchResult := ⟨false, "", "network error", none⟩

/-! ### Claim theorems -/

/-- C7: `check_no_results` reports exhaustion exactly when the probe fetch
succeeded and the fetched content contains the sentinel "No Results Found";
and whenever it reports exhaustion, `fetch_and_process_page` returns the
empty list with the stop flag and the untouched seen set, for every
extraction collaborator — i.e. without invoking extraction. -/
theorem c7_detector_exhaustion :
    (∀ r : FetchResult, check_no_results r = true ↔
      (r.success = true ∧ "No Results Found".toList <:+: r.cleaned_html.toList)) ∧
    (∀ (probe page_result : FetchResult) (json_loads : String → Except PyError Json)
      (req : List String) (s : List Json), check_no_results probe = true →
      fetch_and_process_page probe page_result json_loads req s = .ok ⟨[], true, s⟩) := by
  constructor
  · intro r
    unfold check_no_results
    cases hs : r.success with
    | true => simp
    | false => simp
  · intro probe pr loads req s hp
    unfold fetch_and_process_page
    rw [if_pos hp]

/-- C7 witness: on a concrete exhausted probe, the detector fires and the
page-processing call returns the empty stop outcome. -/
theorem c7_witness :
    check_no_results probeExhausted = true ∧
    fetch_and_process_page probeExhausted goodFetch (fun _ => .ok (Json.arr [sampleVenue]))
      REQUIRED_KEYS [] = .ok ⟨[], true, []⟩ := by
  have h1 : check_no_results probeExhausted = true :=
    (c7_detector_exhaustion.1 probeExhausted).mpr ⟨rfl, by decide⟩
  exact ⟨h1, c7_detector_exhaustion.2 probeExhausted goodFetch
    (fun _ => .ok (Json.arr [sampleVenue])) REQUIRED_KEYS [] h1⟩

/-- C8: the validator `is_complete_venue` is true on a mapping iff every
required field name is a key with a value that is neither null nor the
empty string (numbers and booleans are never equal to the empty string, so
they are only checked for presence and non-null), and it is false — not an
exception — on any non-mapping candidate.  Purity and non-mutation are
inherent: the embedding is a function of its arguments. -/
theorem c8_validator_complete :
    (∀ (fields : List (String × Json)) (req : List String),
      is_complete_venue (.obj fields) req = true ↔
        ∀ k ∈ req, ∃ v, objLookup fields k = some v ∧ v ≠ Json.null ∧ v ≠ Json.str "") ∧
    (∀ (c : Json) (req : List String), (∀ fields, c ≠ .obj fields) →
      is_complete_venue c req = false) := by
  constructor
  · intro fields req
    unfold is_complete_venue
    rw [List.all_eq_true]
    constructor
    · intro h k hk
      have hx := h k hk
      cases hl : objLookup fields k with
      | none => rw [hl] at hx; simp at hx
      | some v =>
        rw [hl] at hx
        simp only [decide_eq_true_eq, Bool.and_eq_true] at hx
        exact ⟨v, rfl, hx.1, hx.2⟩
    · intro h k hk
      obtain ⟨v, hv, h1, h2⟩ := h k hk
      rw [hv]
      simp [h1, h2]
  · intro c req h
    cases c with
    | obj fields => exact absurd rfl (h fields)
    | null => rfl
    | bool b => rfl
    | num q => rfl
    | str t => rfl
    | arr xs => rfl

/-- C8 witness: the complete sample candidate validates against the
configured key set; a bare string candidate is rejected without raising. -/
theorem c8_witness :
    is_complete_venue (.obj sampleFields) REQUIRED_KEYS = true ∧
    is_complete_venue (Json.str "oops") REQUIRED_KEYS = false := by
  constructor
  · refine (c8_validator_complete.1 sampleFields REQUIRED_KEYS).mpr ?_
    intro k hk
    simp only [REQUIRED_KEYS, List.mem_cons, List.not_mem_nil, or_false] at hk
    rcases hk with rfl | rfl | rfl | rfl | rfl | rfl | rfl <;>
      exact ⟨_, rfl, by decide, by decide⟩
  · exact c8_validator_complete.2 (Json.str "oops") REQUIRED_KEYS
      (fun fields h => Json.noConfusion h)

/-- C1 (amended): when the probe fetch fails, the detector indeed reports
non-exhaustion — but the controller does NOT stop at that page: the call
proceeds to the extraction phase exactly as if the probe had found results.
Only a subsequent extraction failure produces the empty stop outcome. -/
theorem c1_probe_failure_proceeds :
    ∀ (probe page_result : FetchResult) (json_loads : String → Except PyError Json)
      (req : List String) (s : List Json), probe.success = false →
      check_no_results probe = false ∧
      fetch_and_process_page probe page_result json_loads req s =
        extract_phase page_result json_loads req s := by
  intro probe pr loads req s hp
  have hc : check_no_results probe = false := by
    unfold check_no_results
    rw [hp]
    rfl
  refine ⟨hc, ?_⟩
  unfold fetch_and_process_page
  rw [hc]
  rfl

/-- C1 counterexample: with a failing probe and a succeeding extraction
fetch, the code still invokes extraction and returns that page's records —
refuting the claim that a probe failure stops processing at that page. -/
theorem c1_counterexample :
    ¬ (∀ (probe page_result : FetchResult) (json_loads : String → Except PyError Json)
        (req : List String) (s : List Json) (out : PageOutcome),
        probe.success = false →
        fetch_and_process_page probe page_result json_loads req s = .ok out →
        out.venues = []) := by
  intro hclaim
  have := hclaim probeFail goodFetch (fun _ => .ok (Json.arr [sampleVenue])) REQUIRED_KEYS []
    ⟨[sampleVenue], false, [Json.str "Dune"]⟩ rfl (by decide)
  simp at this

/-- C1 witness: on a concrete failed probe the detector reports false and
the call equals the extraction phase applied to the page fetch. -/
theorem c1_witness :
    check_no_results probeFail = false ∧
    fetch_and_process_page probeFail goodFetch (fun _ => .ok (Json.arr [sampleVenue]))
      REQUIRED_KEYS [] =
      extract_phase goodFetch (fun _ => .ok (Json.arr [sampleVenue])) REQUIRED_KEYS [] :=
  c1_probe_failure_proceeds probeFail goodFetch (fun _ => .ok (Json.arr [sampleVenue]))
    REQUIRED_KEYS [] rfl

/-- C2 (amended): a false-valued error marker is stripped before validation
and the candidate continues through the pipeline; an error marker with any
OTHER value — true-like values included — is left in place and is not by
itself a ground for rejection: a complete, non-duplicate candidate is
accepted with the marker intact. -/
theorem c2_error_marker :
    ∀ (req : List String) (s : List Json) (fields : List (String × Json)),
      (objLookup fields "error" = some (Json.bool false) →
        process_venue req s (.obj fields) =
          process_venue req s (popKey (.obj fields) "error")) ∧
      (objLookup fields "error" ≠ some (Json.bool false) →
        is_complete_venue (.obj fields) req = true →
        ∀ nm, pyIndex (.obj fields) "name" = .ok nm →
          is_duplicate_venue nm s = false →
          process_venue req s (.obj fields) = .ok (some (.obj fields), s ++ [nm])) := by
  intro req s fields
  constructor
  · intro h
    rw [process_venue_obj]
    have h1 : strip_false_error (.obj fields) = .obj (fields.filter (keepEntry "error")) := by
      simp [strip_false_error, h]
    have h2 : process_venue req s (popKey (.obj fields) "error") =
        filter_step req s (strip_false_error (.obj (fields.filter (keepEntry "error")))) :=
      process_venue_obj req s (fields.filter (keepEntry "error"))
    have h3 : strip_false_error (.obj (fields.filter (keepEntry "error"))) =
        .obj (fields.filter (keepEntry "error")) := by
      apply strip_false_error_id
      simp only [venue_get]
      rw [objLookup_filter_self]
      simp
    rw [h1, h2, h3]
  · intro h hcomp nm hidx hdup
    rw [process_venue_obj]
    have h1 : strip_false_error (.obj fields) = .obj fields := by
      simp [strip_false_error, h]
    rw [h1]
    simp [filter_step, hcomp, hidx, hdup]

/-- C2 counterexample: a complete candidate whose error marker is the
boolean `true` (a true-like value) is NOT rejected by the filtering step —
it is accepted, marker and all — refuting the claimed rejection. -/
theorem c2_counterexample :
    ¬ (∀ (fields : List (String × Json)) (s : List Json) (r : Option Json) (s' : List Json),
        jsonTruthy ((objLookup fields "error").getD Json.null) = true →
        process_venue REQUIRED_KEYS s (.obj fields) = .ok (r, s') →
        r = none) := by
  intro hclaim
  have := hclaim errTrueFields [] (some (.obj errTrueFields)) [Json.str "Dune"]
    (by decide) (by decide)
  simp at this

/-- C2 witness: the false marker is stripped (the step coincides with the
step on the popped mapping); the true-marked complete candidate passes the
pipeline and is accepted with its marker intact. -/
theorem c2_witness :
    process_venue REQUIRED_KEYS [] (.obj errFalseFields) =
      process_venue REQUIRED_KEYS [] (popKey (.obj errFalseFields) "error") ∧
    process_venue REQUIRED_KEYS [] (.obj errTrueFields) =
      .ok (some (.obj errTrueFields), [Json.str "Dune"]) := by
  constructor
  · exact (c2_error_marker REQUIRED_KEYS [] errFalseFields).1 (by decide)
  · exact (c2_error_marker REQUIRED_KEYS [] errTrueFields).2 (by decide) (by decide)
      (Json.str "Dune") (by decide) (by decide)

/-- C3 (amended): fetch-level failures and empty extraction output are
absorbed as a clean empty stop — but malformed collaborator output is NOT
absorbed: unparsable extracted content makes the page processing raise the
parse error, and a non-mapping candidate element makes it raise an
exception (an AttributeError at the marker lookup). -/
theorem c3_malformed_raises :
    (∀ (probe page_result : FetchResult) (json_loads : String → Except PyError Json)
       (req : List String) (s : List Json),
       check_no_results probe = false →
       (page_result.success && optStrTruthy page_result.extracted_content) = false →
       fetch_and_process_page probe page_result json_loads req s = .ok ⟨[], false, s⟩) ∧
    (∀ (probe page_result : FetchResult) (json_loads : String → Except PyError Json)
       (req : List String) (s : List Json) (e : PyError),
       check_no_results probe = false →
       (page_result.success && optStrTruthy page_result.extracted_content) = true →
       json_loads (page_result.extracted_content.getD "") = .error e →
       fetch_and_process_page probe page_result json_loads req s = .error e) ∧
    (∀ (probe page_result : FetchResult) (json_loads : String → Except PyError Json)
       (req : List String) (s : List Json) (data : Json) (venue_list : List Json) (v : Json),
       check_no_results probe = false →
       (page_result.success && optStrTruthy page_result.extracted_content) = true →
       json_loads (page_result.extracted_content.getD "") = .ok data →
       jsonTruthy data = true →
       pyIter data = .ok venue_list →
       v ∈ venue_list → (∀ fields, v ≠ .obj fields) →
       ∃ e, fetch_and_process_page probe page_result json_loads req s = .error e) := by
  refine ⟨?_, ?_, ?_⟩
  · intro probe pr loads req s hp hf
    simp [fetch_and_process_page, extract_phase, hp, hf]
  · intro probe pr loads req s e hp hf hload
    simp [fetch_and_process_page, extract_phase, hp, hf, hload]
  · intro probe pr loads req s data vl v hp hf hload ht hvl hv hnobj
    obtain ⟨e, he⟩ := process_venues_raises req vl [] s v hv hnobj
    exact ⟨e, by simp [fetch_and_process_page, extract_phase, hp, hf, hload, ht, hvl, he]⟩

/-- C3 counterexample: processing a page can raise — with parsable-looking
inputs but a failing parse, `fetch_and_process_page` is an exception, not a
clean stop, refuting "never raises an unrecoverable condition". -/
theorem c3_counterexample :
    ¬ (∀ (probe page_result : FetchResult) (json_loads : String → Except PyError Json)
        (req : List String) (s : List Json),
        ∃ out, fetch_and_process_page probe page_result json_loads req s = .ok out) := by
  intro hclaim
  obtain ⟨out, hout⟩ := hclaim probeOk goodFetch (fun _ => .error .jsonDecodeError)
    REQUIRED_KEYS []
  have h2 : fetch_and_process_page probeOk goodFetch (fun _ => .error .jsonDecodeError)
      REQUIRED_KEYS [] = .error .jsonDecodeError := by decide
  rw [h2] at hout
  exact absurd hout (by simp)

/-- C3 witness: a failed extraction fetch stops cleanly; an unparsable
extraction raises the decode error; a non-mapping candidate raises. -/
theorem c3_witness :
    fetch_and_process_page probeOk failedFetch (fun _ => .ok (Json.arr [sampleVenue]))
      REQUIRED_KEYS [] = .ok ⟨[], false, []⟩ ∧
    fetch_and_process_page probeOk goodFetch (fun _ => .error .jsonDecodeError)
      REQUIRED_KEYS [] = .error .jsonDecodeError ∧
    ∃ e, fetch_and_process_page probeOk goodFetch (fun _ => .ok (Json.arr [Json.str "oops"]))
      REQUIRED_KEYS [] = .error e := by
  refine ⟨?_, ?_, ?_⟩
  · exact c3_malformed_raises.1 probeOk failedFetch _ REQUIRED_KEYS [] (by decide) (by decide)
  · exact c3_malformed_raises.2.1 probeOk goodFetch _ REQUIRED_KEYS [] .jsonDecodeError
      (by decide) (by decide) rfl
  · exact c3_malformed_raises.2.2 probeOk goodFetch _ REQUIRED_KEYS []
      (Json.arr [Json.str "oops"]) [Json.str "oops"] (Json.str "oops")
      (by decide) (by decide) rfl (by decide) rfl (by decide)
      (fun fields h => Json.noConfusion h)

/-- C4 (amended): a successful PageResult is either a non-empty record list
with the flag false, or an empty list; the flag is true only when the probe
reported the sentinel (and then the seen set is untouched).  The extraction
failure, empty-output and zero-survivor outcomes return the empty list with
the flag FALSE: the stop there is signalled by emptiness, not the boolean. -/
theorem c4_page_result_shape :
    ∀ (probe page_result : FetchResult) (json_loads : String → Except PyError Json)
      (req : List String) (s : List Json) (out : PageOutcome),
      fetch_and_process_page probe page_result json_loads req s = .ok out →
      (out.no_results = true → check_no_results probe = true ∧ out.venues = [] ∧
        out.seen_names = s) ∧
      (out.venues ≠ [] → out.no_results = false) := by
  intro probe pr loads req s out h
  rcases fetch_ok_cases h with ⟨hp, rfl⟩ | ⟨hp, hf, rfl⟩ | ⟨hp, hf, data, hd, hrest⟩
  · exact ⟨fun _ => ⟨hp, rfl, rfl⟩, fun hne => absurd rfl hne⟩
  · exact ⟨fun ht => by simp at ht, fun _ => rfl⟩
  · rcases hrest with ⟨ht, rfl⟩ | ⟨ht, vl, c, s', hvl, hpv, hlast⟩
    · exact ⟨fun hc => by simp at hc, fun _ => rfl⟩
    · rcases hlast with ⟨hc, rfl⟩ | ⟨hc, rfl⟩
      · exact ⟨fun hx => by simp at hx, fun _ => rfl⟩
      · exact ⟨fun hx => by simp at hx, fun _ => rfl⟩

/-- C4 counterexample: a failed extraction fetch yields the empty list with
the boolean FALSE — the boolean does not signal the stop, refuting "whenever
the record list is empty the accompanying boolean signals stop". -/
theorem c4_counterexample :
    ¬ (∀ (probe page_result : FetchResult) (json_loads : String → Except PyError Json)
        (req : List String) (s : List Json) (out : PageOutcome),
        fetch_and_process_page probe page_result json_loads req s = .ok out →
        out.venues = [] → out.no_results = true) := by
  intro hclaim
  have := hclaim probeOk failedFetch (fun _ => .ok (Json.arr [sampleVenue])) REQUIRED_KEYS []
    ⟨[], false, []⟩ (by decide) rfl
  simp at this

/-- C4 witness: on the concrete sentinel input the flag is true, the list
empty and the seen set untouched. -/
theorem c4_witness :
    check_no_results probeExhausted = true ∧ ([] : List Json) = [] ∧
      ([] : List Json) = ([] : List Json) :=
  (c4_page_result_shape probeExhausted goodFetch (fun _ => .ok (Json.arr [sampleVenue]))
    REQUIRED_KEYS [] ⟨[], true, []⟩ (by decide)).1 rfl

/-- Shared helper: a successful page-processing call returns exactly the
stripped candidates of some subsequence of the parsed extraction output. -/
theorem fetch_ok_sublist {probe page_result : FetchResult}
    {json_loads : String → Except PyError Json} {req : List String} {s : List Json}
    {out : PageOutcome} {data : Json} {venue_list : List Json}
    (h : fetch_and_process_page probe page_result json_loads req s = .ok out)
    (hload : json_loads (page_result.extracted_content.getD "") = .ok data)
    (hvl : pyIter data = .ok venue_list) :
    ∃ sel : List Json, sel.Sublist venue_list ∧
      out.venues = sel.map strip_false_error := by
  rcases fetch_ok_cases h with ⟨hp, rfl⟩ | ⟨hp, hf, rfl⟩ | ⟨hp, hf, data', hd, hrest⟩
  · exact ⟨[], List.nil_sublist _, rfl⟩
  · exact ⟨[], List.nil_sublist _, rfl⟩
  · obtain rfl : data' = data := Except.ok.inj (hd.symm.trans hload)
    rcases hrest with ⟨ht, rfl⟩ | ⟨ht, vl', c, s', hvl', hpv, hlast⟩
    · exact ⟨[], List.nil_sublist _, rfl⟩
    · have hveq : vl' = venue_list := Except.ok.inj (hvl'.symm.trans hvl)
      rw [hveq] at hpv
      obtain ⟨sel, hsub, hc, -, -, -⟩ := process_venues_ok_spec req venue_list [] s c s' hpv
      rw [List.nil_append] at hc
      rcases hlast with ⟨hcnil, rfl⟩ | ⟨-, rfl⟩
      · exact ⟨[], List.nil_sublist _, rfl⟩
      · exact ⟨sel, hsub, hc⟩

/-- C5: for every successful page-processing call starting from any
duplicate-free seen set, the returned records carry pairwise-distinct
names, none of those names was already seen, the final seen set is exactly
the entering set united with the returned names, and it is again
duplicate-free. -/
theorem c5_dedup_invariant :
    ∀ (probe page_result : FetchResult) (json_loads : String → Except PyError Json)
      (req : List String) (s : List Json) (out : PageOutcome),
      fetch_and_process_page probe page_result json_loads req s = .ok out →
      s.Nodup →
      (out.venues.map venue_name_value).Nodup ∧
      (∀ nm ∈ out.venues.map venue_name_value, nm ∉ s) ∧
      (∀ x, x ∈ out.seen_names ↔ (x ∈ s ∨ x ∈ out.venues.map venue_name_value)) ∧
      out.seen_names.Nodup := by
  intro probe pr loads req s out h hnd
  rcases fetch_ok_cases h with ⟨hp, rfl⟩ | ⟨hp, hf, rfl⟩ | ⟨hp, hf, data, hd, hrest⟩
  · simpa using hnd
  · simpa using hnd
  · rcases hrest with ⟨ht, rfl⟩ | ⟨ht, vl, c, s', hvl, hpv, hlast⟩
    · simpa using hnd
    · obtain ⟨sel, hsub, hc, hs, hndn, hni⟩ := process_venues_ok_spec req vl [] s c s' hpv
      rw [List.nil_append] at hc
      have hmapeq : ∀ t : List Json, (t.map strip_false_error).map venue_name_value =
          accepted_names t := by
        intro t
        rw [List.map_map]
        rfl
      rcases hlast with ⟨hcnil, rfl⟩ | ⟨hcne, rfl⟩
      · obtain rfl : sel = [] := by
          rcases List.map_eq_nil_iff.mp (hc ▸ hcnil) with h'
          exact h'
        have hs' : s' = s := by simpa [accepted_names] using hs
        subst hs'
        simpa using hnd
      · subst hc
        refine ⟨?_, ?_, ?_, ?_⟩
        · rw [hmapeq]; exact hndn
        · rw [hmapeq]; exact hni
        · intro x
          simp only [PageOutcome.seen_names, PageOutcome.venues, hs, hmapeq,
            List.mem_append]
        · simp only [PageOutcome.seen_names, hs]
          exact hnd.append hndn (fun a ha hb => hni a hb ha)

/-- C5 witness: with an empty entering seen set and a page yielding one
record named "Dune", all four invariants hold at the concrete outcome. -/
theorem c5_witness :
    (([sampleVenue] : List Json).map venue_name_value).Nodup ∧
    (∀ nm ∈ ([sampleVenue] : List Json).map venue_name_value, nm ∉ ([] : List Json)) ∧
    (∀ x, x ∈ ([Json.str "Dune"] : List Json) ↔
      (x ∈ ([] : List Json) ∨ x ∈ ([sampleVenue] : List Json).map venue_name_value)) ∧
    ([Json.str "Dune"] : List Json).Nodup :=
  c5_dedup_invariant probeOk goodFetch (fun _ => .ok (Json.arr [sampleVenue, sampleVenue]))
    REQUIRED_KEYS [] ⟨[sampleVenue], false, [Json.str "Dune"]⟩ (by decide) (by decide)

/-- C6: filtering is dedup-idempotent — running the filtering loop a second
time over the same extraction output, starting from the seen set produced
by the first run, accepts zero candidates and leaves the seen set
unchanged. -/
theorem c6_filter_idempotent :
    ∀ (req : List String) (venue_list s c s' : List Json),
      process_venues req venue_list [] s = .ok (c, s') →
      process_venues req venue_list [] s' = .ok ([], s') := by
  intro req vl s c s' h
  exact (process_venues_twice req vl [] s c s' h).2 []

/-- C6 witness: the sample page accepted "Dune" on the first run; the
second run over the same output yields zero survivors. -/
theorem c6_witness :
    process_venues REQUIRED_KEYS [sampleVenue] [] [Json.str "Dune"] =
      .ok ([], [Json.str "Dune"]) :=
  c6_filter_idempotent REQUIRED_KEYS [sampleVenue] [] [sampleVenue] [Json.str "Dune"]
    (by decide)

/-- C9: the record list returned by a successful page-processing call is a
subsequence of the parsed extracted candidates in their original extraction
order — rejected candidates removed, no reordering — where each surviving
record is its candidate after the in-place error-marker strip (in Python
the very same mutated dict object). -/
theorem c9_output_subsequence :
    ∀ (probe page_result : FetchResult) (json_loads : String → Except PyError Json)
      (req : List String) (s : List Json) (out : PageOutcome) (data : Json)
      (venue_list : List Json),
      fetch_and_process_page probe page_result json_loads req s = .ok out →
      json_loads (page_result.extracted_content.getD "") = .ok data →
      pyIter data = .ok venue_list →
      ∃ sel : List Json, sel.Sublist venue_list ∧
        out.venues = sel.map strip_false_error := by
  intro probe pr loads req s out data vl h hload hvl
  exact fetch_ok_sublist h hload hvl

/-- C9 witness: a page with one false-marked complete candidate and one
incomplete candidate returns exactly the stripped first candidate, a
subsequence of the two parsed candidates. -/
theorem c9_witness :
    ∃ sel : List Json, sel.Sublist [errFalseVenue, incompleteVenue] ∧
      ([sampleVenue] : List Json) = sel.map strip_false_error :=
  c9_output_subsequence probeOk goodFetch
    (fun _ => .ok (Json.arr [errFalseVenue, incompleteVenue])) REQUIRED_KEYS []
    ⟨[sampleVenue], false, [Json.str "Dune"]⟩ (Json.arr [errFalseVenue, incompleteVenue])
    [errFalseVenue, incompleteVenue] (by decide) rfl rfl

/-- C10: the only mutation filtering applies to a candidate is the removal
of the `error` key when its value is the boolean `false`, before
validation: the strip is the identity for any other marker value, it never
changes a key other than `error`, a stripped record carries no `error` key,
and every returned record is exactly the (possibly stripped) candidate the
extraction collaborator produced. -/
theorem c10_strip_frame :
    (∀ v : Json, venue_get v "error" ≠ some (Json.bool false) → strip_false_error v = v) ∧
    (∀ (v : Json) (k : String), k ≠ "error" →
      venue_get (strip_false_error v) k = venue_get v k) ∧
    (∀ v : Json, venue_get v "error" = some (Json.bool false) →
      venue_get (strip_false_error v) "error" = none) ∧
    (∀ (probe page_result : FetchResult) (json_loads : String → Except PyError Json)
      (req : List String) (s : List Json) (out : PageOutcome) (data : Json)
      (venue_list : List Json),
      fetch_and_process_page probe page_result json_loads req s = .ok out →
      json_loads (page_result.extracted_content.getD "") = .ok data →
      pyIter data = .ok venue_list →
      ∀ w ∈ out.venues, ∃ v ∈ venue_list, w = strip_false_error v) := by
  refine ⟨fun v h => strip_false_error_id h, fun v k hk => strip_false_error_frame v k hk,
    fun v h => strip_false_error_removes v h, ?_⟩
  intro probe pr loads req s out data vl h hload hvl w hw
  obtain ⟨sel, hsub, hc⟩ := fetch_ok_sublist h hload hvl
  rw [hc] at hw
  obtain ⟨v, hv, hvw⟩ := List.mem_map.mp hw
  exact ⟨v, hsub.subset hv, hvw.symm⟩

/-- C10 witness: a non-false marker leaves the candidate untouched; the
strip preserves the name field and erases the false marker; the concrete
returned record is the stripped form of a parsed candidate. -/
theorem c10_witness :
    strip_false_error incompleteVenue = incompleteVenue ∧
    venue_get (strip_false_error errFalseVenue) "name" = venue_get errFalseVenue "name" ∧
    venue_get (strip_false_error errFalseVenue) "error" = none ∧
    ∃ v ∈ ([errFalseVenue] : List Json), sampleVenue = strip_false_error v := by
  refine ⟨c10_strip_frame.1 incompleteVenue (by decide),
    c10_strip_frame.2.1 errFalseVenue "name" (by decide),
    c10_strip_frame.2.2.1 errFalseVenue (by decide), ?_⟩
  exact c10_strip_frame.2.2.2 probeOk goodFetch (fun _ => .ok (Json.arr [errFalseVenue]))
    REQUIRED_KEYS [] ⟨[sampleVenue], false, [Json.str "Dune"]⟩ (Json.arr [errFalseVenue])
    [errFalseVenue] (by decide) rfl rfl sampleVenue (by decide)
